import Mathlib

/-!
Verification development for the UBCRocketGroundStation binary protocol
engine: a shallow embedding of `SimConnection` (src/connections/sim/
sim_connection.py) and `PacketParser` (src/main_window/packet_parser.py),
with theorems settling the frozen claims about endianness negotiation,
framing, the read loop, shutdown, and telemetry subpacket decoding.

Bytes are modelled as `Nat` (values < 256 where produced by the code);
byte streams as `List Nat`; IEEE-754 float32 values as their 32-bit
patterns (`Nat` < 2^32), which is the level at which the claims speak
("bit patterns"); fallible Python code as `Except String`.
-/

namespace GroundStation

/-- The `SimRxId` enum values (src/connections/sim/sim_connection.py lines 16-22):
the recognized bridge-inbound opcodes. -/
def recognizedRxOpcodes : List Nat := [0x01, 0x07, 0x50, 0x52, 0x61, 0x73]

/-- Keys of `SimConnection.packetHandlers` (lines 191-198). CONFIG (0x01) is
deliberately absent: "DO NOT HANDLE CONFIG - it should be received only once
at the start". -/
def handledOpcodes : List Nat := [0x07, 0x50, 0x52, 0x61, 0x73]

/-- The `LOG_HISTORY_SIZE` (line 31): bound on the diagnostic byte history. -/
def LOG_HISTORY_SIZE : Nat := 500

/-- Serialize a 32-bit word as 4 bytes, most-significant first when
`bigEndian`, least-significant first otherwise. This is the byte layout of
`struct.pack` with format `>f`/`>I` versus `<f`/`<I` viewed at the level of
the 32-bit pattern. -/
def pack32 (bigEndian : Bool) (w : Nat) : List Nat :=
  if bigEndian then [w / 2 ^ 24 % 256, w / 2 ^ 16 % 256, w / 2 ^ 8 % 256, w % 256]
  else [w % 256, w / 2 ^ 8 % 256, w / 2 ^ 16 % 256, w / 2 ^ 24 % 256]

/-- Recombine 4 bytes into a 32-bit word under the given endianness. This is
the 32-bit pattern read by `struct.unpack` with `>f`/`>I` versus `<f`/`<I`
from 4 raw bytes. -/
def unpack32 (bigEndian : Bool) (bs : List Nat) : Nat :=
  match bs with
  | [b0, b1, b2, b3] =>
    if bigEndian then b0 * 2 ^ 24 + b1 * 2 ^ 16 + b2 * 2 ^ 8 + b3
    else b3 * 2 ^ 24 + b2 * 2 ^ 16 + b1 * 2 ^ 8 + b0
  | _ => 0

theorem unpack32_pack32 (bigEndian : Bool) (w : Nat) (hw : w < 2 ^ 32) :
    unpack32 bigEndian (pack32 bigEndian w) = w := by
  cases bigEndian <;> simp [pack32, unpack32] <;> omega

/-- The `SimConnection._send_sim_packet` (lines 90-96): frame = 1-byte id,
2-byte big-endian length of the payload, then the payload. (The source
writes the frame byte-at-a-time as a workaround for text translation of
LF; the bytes produced are exactly these. `len(data)` is assumed < 2^16 as
`int.to_bytes(2, "big")` requires.) -/
def sendSimPacket (id : Nat) (data : List Nat) : List Nat :=
  id :: data.length / 256 :: data.length % 256 :: data

/-- The `SimConnection._getLength` (lines 223-225): read two bytes `[msb, lsb]`
(list destructuring raises if fewer than 2 remain) and return
`(msb << 8) | lsb`. Returns the length, the consumed bytes, and the rest of
the stream. -/
def getLength (s : List Nat) : Except String (Nat × List Nat) :=
  match s with
  | msb :: lsb :: rest => .ok (msb * 256 + lsb, rest)
  | _ => .error "ValueError: not enough values to unpack"

/-- The `SimConnection._getEndianness` (lines 135-148): read one opcode byte
(must be CONFIG = 0x01), a 2-byte big-endian length (must be 8), then the
8-byte payload; `bigEndianInts := data[0] == 0x04`,
`bigEndianFloats := data[4] == 0xC0`. Returns the two flags and the
unconsumed stream. -/
def getEndianness (s : List Nat) : Except String (Bool × Bool × List Nat) :=
  match s with
  | [] => .error "IndexError: read returned no data"
  | id :: rest =>
    if id ≠ 0x01 then .error "AssertionError: id == SimRxId.CONFIG.value"
    else
      match getLength rest with
      | .error e => .error e
      | .ok (len, rest2) =>
        if len ≠ 8 then .error "AssertionError: length == 8"
        else
          let data := rest2.take len
          match data.get? 0, data.get? 4 with
          | some b0, some b4 => .ok (decide (b0 = 0x04), decide (b4 = 0xC0), rest2.drop len)
          | _, _ => .error "IndexError: payload too short"

/-- The `SensorType` values named in the `ID_TO_SENSOR` table
(src/connections/sim/sim_connection.py lines 33-40). -/
inductive SensorType
  | GPS | IMU | ACCELEROMETER | BAROMETER | TEMPERATURE | THERMOCOUPLE
deriving DecidableEq

/-- The `ID_TO_SENSOR` (lines 33-40): sensor-kind byte to sensor type; only
0x00-0x05 are present (any other key raises `KeyError`). -/
def idToSensor (id : Nat) : Option SensorType :=
  match id with
  | 0x00 => some .GPS
  | 0x01 => some .IMU
  | 0x02 => some .ACCELEROMETER
  | 0x03 => some .BAROMETER
  | 0x04 => some .TEMPERATURE
  | 0x05 => some .THERMOCOUPLE
  | _ => none

/-- Modelled from the spec (§6 hardware-model collaborator contract;
`hw_sim.py` is not under src/): the hardware model answers
`analog_read(pin) -> u16` and `sensor_read(kind) -> sequence<f32>`; float32
readings are modelled by their 32-bit patterns. -/
structure HwModel where
  analog_read : Nat → Nat
  sensor_read : SensorType → List Nat

/-- The connection attributes the read loop consults: the endianness flags
negotiated by `_getEndianness`, and whether the ground callback of the relay is
registered (modelled from the spec §4.3: `received_from_rocket` fails if no
receive callback is registered; `xbee_module_sim.py` is not under src/). -/
structure ConnState where
  bigEndianInts : Bool
  bigEndianFloats : Bool
  callbackRegistered : Bool
deriving DecidableEq

/-- Observable effects of one pass of `SimConnection._run` and its handlers:
log lines, hardware-model calls, relay forwards, and frames written back to
the firmware subprocess. -/
inductive SimEvent
  | logBuzzer (songType : Nat)
  | digitalWrite (pin val : Nat)
  | emptyRadioWarning
  | radioReceived (data : List Nat)
  | sentPacket (frame : List Nat)
  | violationLogged (history : List Nat)
  | errorLogged
  | threadShutdownWarning
deriving DecidableEq

/-- Modelled from the spec (§4.1 FrameReader; `stream_filter.py` is not
under src/): the `StreamFilter` keeps a bounded rolling history (bound
`LOG_HISTORY_SIZE`) of the raw bytes it has delivered. -/
def pushHist (hist bs : List Nat) : List Nat :=
  let h := hist ++ bs
  h.drop (h.length - LOG_HISTORY_SIZE)

/-- Result of one handler: events emitted, updated read history, rest of the
input stream. -/
structure HandlerOut where
  events : List SimEvent
  hist : List Nat
  rest : List Nat
deriving DecidableEq

/-- The `_getLength` as used inside a handler, threading the byte history. -/
def getLengthH (hist s : List Nat) : Except (List SimEvent) (Nat × List Nat × List Nat) :=
  match s with
  | msb :: lsb :: rest => .ok (msb * 256 + lsb, pushHist hist [msb, lsb], rest)
  | _ => .error []

/-- The `SimConnection._handleBuzzer` (lines 150-156): length must be 1; read
that byte and log the song type. -/
def handleBuzzer (hist s : List Nat) : Except (List SimEvent) HandlerOut :=
  match getLengthH hist s with
  | .error evs => .error evs
  | .ok (len, hist1, rest) =>
    if len ≠ 1 then .error []
    else
      match rest with
      | [] => .error []
      | b :: rest1 => .ok ⟨[.logBuzzer b], pushHist hist1 [b], rest1⟩

/-- The `SimConnection._handleDigitalPinWrite` (lines 158-164): length must be
2; read `pin, value` and forward to the hardware model. -/
def handleDigitalPinWrite (hist s : List Nat) : Except (List SimEvent) HandlerOut :=
  match getLengthH hist s with
  | .error evs => .error evs
  | .ok (len, hist1, rest) =>
    if len ≠ 2 then .error []
    else
      match rest with
      | pin :: val :: rest1 => .ok ⟨[.digitalWrite pin val], pushHist hist1 [pin, val], rest1⟩
      | _ => .error []

/-- The `SimConnection._handleRadio` (lines 166-173): no length assertion; a
zero length logs a warning; payload is read (possibly short on closure) and
forwarded verbatim to the relay, which fails if no ground callback is
registered. -/
def handleRadio (conn : ConnState) (hist s : List Nat) : Except (List SimEvent) HandlerOut :=
  match getLengthH hist s with
  | .error evs => .error evs
  | .ok (len, hist1, rest) =>
    let warn : List SimEvent := if len = 0 then [.emptyRadioWarning] else []
    let data := rest.take len
    if conn.callbackRegistered then
      .ok ⟨warn ++ [.radioReceived data], pushHist hist1 data, rest.drop len⟩
    else .error warn

/-- The `SimConnection._handleAnalogRead` (lines 175-180): length must be 1;
query the hardware model for the pin, serialize the reading as 2 big-endian
bytes (`to_bytes(2, "big")` raises on values ≥ 2^16), and frame it back
with opcode 0x61. -/
def handleAnalogRead (hw : HwModel) (hist s : List Nat) : Except (List SimEvent) HandlerOut :=
  match getLengthH hist s with
  | .error evs => .error evs
  | .ok (len, hist1, rest) =>
    if len ≠ 1 then .error []
    else
      match rest with
      | [] => .error []
      | pin :: rest1 =>
        let v := hw.analog_read pin
        if v < 2 ^ 16 then
          .ok ⟨[.sentPacket (sendSimPacket 0x61 [v / 256, v % 256])], pushHist hist1 [pin], rest1⟩
        else .error []

/-- Response payload built by `_handleSensorRead` (line 188):
`struct.pack(f"{endianness}{n}f", *sensor_data)` — each float32 as 4 bytes
in the negotiated float endianness, concatenated. -/
def packSensorData (bigEndianFloats : Bool) (ws : List Nat) : List Nat :=
  (ws.map (pack32 bigEndianFloats)).flatten

/-- The `SimConnection._handleSensorRead` (lines 182-189): length must be 1;
the sensor-kind byte is mapped through `ID_TO_SENSOR` (raising on unknown
ids); the reading vector from the hardware model is packed as float32 values in
the negotiated float endianness and framed back with opcode 0x73. -/
def handleSensorRead (conn : ConnState) (hw : HwModel) (hist s : List Nat) :
    Except (List SimEvent) HandlerOut :=
  match getLengthH hist s with
  | .error evs => .error evs
  | .ok (len, hist1, rest) =>
    if len ≠ 1 then .error []
    else
      match rest with
      | [] => .error []
      | sid :: rest1 =>
        match idToSensor sid with
        | none => .error []
        | some sensor =>
          let result := packSensorData conn.bigEndianFloats (hw.sensor_read sensor)
          .ok ⟨[.sentPacket (sendSimPacket 0x73 result)], pushHist hist1 [sid], rest1⟩

/-- The `SimConnection.packetHandlers` dispatch (lines 191-198, 213-214): the
handler bound to each recognized opcode. Only called with
`id ∈ handledOpcodes`. -/
def dispatch (conn : ConnState) (hw : HwModel) (id : Nat) (hist s : List Nat) :
    Except (List SimEvent) HandlerOut :=
  if id = 0x07 then handleBuzzer hist s
  else if id = 0x50 then handleDigitalPinWrite hist s
  else if id = 0x52 then handleRadio conn hist s
  else if id = 0x61 then handleAnalogRead hw hist s
  else handleSensorRead conn hw hist s

/-- The `SimConnection._run` (lines 200-221): repeatedly read one opcode byte
and dispatch. An opcode outside `packetHandlers` logs the violation with
the buffered history and returns at once (skipping the final shutdown
warning). Exhaustion of the input (the pipe closing) raises inside `read`,
reaching the `except` clause: an error is logged unless the shutdown guard
is set, then the thread-shutdown warning. `fuel` bounds the iteration count
(any fuel ≥ the stream length is enough: each iteration consumes at least
one byte). The returned `ConnState` is the connection state after the loop;
no handler assigns the endianness attributes, which the result makes
explicit. -/
def runLoop (conn : ConnState) (hw : HwModel) (shuttingDown : Bool) :
    Nat → List Nat → List Nat → List SimEvent × ConnState
  | 0, _, _ => ([], conn)
  | Nat.succ fuel, hist, s =>
    match s with
    | [] =>
      ((if shuttingDown then [] else [SimEvent.errorLogged]) ++ [SimEvent.threadShutdownWarning],
        conn)
    | id :: rest =>
      let hist1 := pushHist hist [id]
      if id ∈ handledOpcodes then
        match dispatch conn hw id hist1 rest with
        | .ok out =>
          let next := runLoop conn hw shuttingDown fuel out.hist out.rest
          (out.events ++ next.1, next.2)
        | .error evs =>
          (evs ++ (if shuttingDown then [] else [SimEvent.errorLogged]) ++
            [SimEvent.threadShutdownWarning], conn)
      else
        ([SimEvent.violationLogged hist1], conn)

/-- Number of protocol-violation log events in a trace. -/
def countViolations (evs : List SimEvent) : Nat :=
  (evs.filter fun e => match e with | .violationLogged _ => true | _ => false).length

/-- Modelled from the spec (§4.3 RadioRelay; `xbee_module_sim.py` is not
under src/): `send_to_rocket(data)` hands the payload to the ground-to-rocket
path of the relay; the model records the sequence of payloads handed
over. -/
def sendToRocket (data : List Nat) : List (List Nat) := [data]

/-- The `SimConnection.broadcast` (lines 87-88): unconditionally forwards the
payload to the ground-to-rocket path of the relay. -/
def broadcast (data : List Nat) : List (List Nat) := sendToRocket data

/-- The `SimConnection.send` (lines 82-85): raises unless `hwid` equals the
fixed identity of the connection (`self.hwid`), otherwise behaves as
`broadcast`. The `.ok` value is the list of payloads forwarded to the
relay; an `.error` forwards nothing. -/
def send (connHwid : String) (hwid : String) (data : List Nat) :
    Except String (List (List Nat)) :=
  if hwid ≠ connHwid then .error ("Connection does not support HWID=" ++ hwid)
  else .ok (broadcast data)

/-- State touched by `SimConnection.shutdown` (lines 123-132). `killCount`
counts kill signals actually delivered to a live subprocess (`Popen.kill`
on an already-dead child delivers nothing new); `threadRunning` is the read
loop thread, whose `join` returns immediately once the thread has
stopped. -/
structure ShutdownState where
  isShuttingDown : Bool
  xbeeShutdown : Bool
  hwShutdown : Bool
  procAlive : Bool
  threadRunning : Bool
  killCount : Nat
deriving DecidableEq

/-- The `self.rocket.kill()` (line 130): force-terminate the subprocess; a
second kill of an already-dead child changes nothing. -/
def killProc (st : ShutdownState) : ShutdownState :=
  if st.procAlive then { st with procAlive := false, killCount := st.killCount + 1 }
  else st

/-- The `self.thread.join()` (line 132): the read loop exits once its input
pipe dies with the subprocess, so after the call the thread is not
running; joining an already-stopped thread returns immediately (modelled by
`joinThread` being a total function). -/
def joinThread (st : ShutdownState) : ShutdownState :=
  { st with threadRunning := false }

/-- The `SimConnection.shutdown` (lines 123-132): set the guard flag under the
lock, shut down the relay and the hardware model, kill the subprocess, join
the read-loop thread. -/
def shutdown (st : ShutdownState) : ShutdownState :=
  joinThread (killProc
    { st with isShuttingDown := true, xbeeShutdown := true, hwShutdown := true })

namespace Parser

/-- The `MIN_SINGLE_SENSOR_ID` (src/main_window/data_entry_id.py line 4): start
of the reserved single-sensor subpacket id range. -/
def MIN_SINGLE_SENSOR_ID : Nat := 0x10

/-- The `MAX_SINGLE_SENSOR_ID` (src/main_window/data_entry_id.py line 5): end of
the reserved single-sensor subpacket id range. -/
def MAX_SINGLE_SENSOR_ID : Nat := 0x2F

/-- Modelled from the spec (§4.4; `subpacket_ids.py` with `SubpacketEnum` is
not under src/): the Message subpacket id. -/
def MESSAGE : Nat := 0x01

/-- Modelled from the spec (§4.4; `subpacket_ids.py` is not under src/):
the Event subpacket id. -/
def EVENT : Nat := 0x02

/-- Modelled from the spec (§4.4; `subpacket_ids.py` is not under src/):
the telemetry-channel Config subpacket id. -/
def CONFIG : Nat := 0x03

/-- Modelled from the spec ("Every successful decode is stamped with the
header timestamp under a reserved key"; `subpacket_ids.py` is not under
src/): the reserved time key, an id in the single-sensor range
(data_entry_id.py lists TIME among the single-sensor entries). -/
def TIME : Nat := 0x10

/-- The `VERSION_ID_LEN` (src/main_window/packet_parser.py line 25). -/
def VERSION_ID_LEN : Nat := 40

/-- Modelled from the spec (the fixed recognized subpacket ids of the decoder;
`subpacket_ids.isSubpacketID` is not under src/): Message, Event, Config,
and the reserved single-sensor range. -/
def isSubpacketID (id : Nat) : Bool :=
  id == MESSAGE || id == EVENT || id == CONFIG ||
    (decide (MIN_SINGLE_SENSOR_ID ≤ id) && decide (id ≤ MAX_SINGLE_SENSOR_ID))

/-- The `DeviceType` values named in `ID_TO_DEVICE`
(src/main_window/packet_parser.py lines 31-35). -/
inductive DeviceType
  | TANTALUS_STAGE_1 | TANTALUS_STAGE_2 | CO_PILOT
deriving DecidableEq

/-- The `ID_TO_DEVICE` (lines 31-35): device byte to device type; only 0x00-0x02
are present (any other key raises `KeyError`). -/
def idToDevice (id : Nat) : Option DeviceType :=
  match id with
  | 0x00 => some .TANTALUS_STAGE_1
  | 0x01 => some .TANTALUS_STAGE_2
  | 0x02 => some .CO_PILOT
  | _ => none

/-- Keys of the parsed-data dict: subpacket-id keys (`SubpacketEnum` values,
Python ints) and the string constants used by the Config parser. -/
inductive Key
  | id : Nat → Key
  | isSim | deviceType | versionId
deriving DecidableEq

/-- Values of the parsed-data dict. Float32 results carry their 32-bit
pattern. -/
inductive Value
  | nat : Nat → Value
  | float32 : Nat → Value
  | str : String → Value
  | bool : Bool → Value
  | device : DeviceType → Value
deriving DecidableEq

/-- The parsed-data dict, in insertion order. -/
abbrev Record := List (Key × Value)

/-- Python dict assignment `d[k] = v`: replace in place if the key exists,
append otherwise. -/
def setKey (r : Record) (k : Key) (v : Value) : Record :=
  if (List.any r fun p => p.1 == k) then
    List.map (fun p => if p.1 == k then (k, v) else p) r
  else r ++ [(k, v)]

/-- Python dict lookup on the model. -/
def lookupRecord (r : Record) (k : Key) : Option Value :=
  match r with
  | [] => none
  | p :: rest => if p.1 == k then some p.2 else lookupRecord rest k

/-- The `bytes.decode("ascii")`: succeeds exactly when every byte is < 128. -/
def decodeAscii (bs : List Nat) : Option String :=
  if bs.all (fun b => b < 128) then some (String.mk (bs.map Char.ofNat)) else none

/-- The `PacketParser.fourtoint` (lines 231-243): assert the list has 4 bytes,
then `struct.unpack` with `>I` or `<I` per the int endianness. -/
def fourtoint (bigEndianInts : Bool) (bs : List Nat) : Except String Nat :=
  if bs.length = 4 then .ok (unpack32 bigEndianInts bs)
  else .error "AssertionError: len 4"

/-- The `PacketParser.fourtofloat` (lines 217-229): assert the list has 4 bytes,
then `struct.unpack` with `>f` or `<f` per the float endianness; the result
is modelled by its 32-bit pattern. -/
def fourtofloat (bigEndianFloats : Bool) (bs : List Nat) : Except String Nat :=
  if bs.length = 4 then .ok (unpack32 bigEndianFloats bs)
  else .error "AssertionError: len 4"

/-- The `Header` namedtuple (line 18). -/
structure Header where
  subpacket_id : Nat
  timestamp : Nat
deriving DecidableEq

/-- The `PacketParser.header` (lines 107-127): read the 1-byte id (raising on an
empty stream), reject ids failing `isSubpacketID` with a `ValueError`, then
read 4 bytes and decode the timestamp with `fourtoint`. The second
component is the stream position reached. -/
def header (bigEndianInts : Bool) (s : List Nat) : Except String Header × List Nat :=
  match s with
  | [] => (.error "IndexError: read returned no data", [])
  | sid :: rest =>
    if ¬ isSubpacketID sid then
      (.error "ValueError: Subpacket id not valid", rest)
    else
      match fourtoint bigEndianInts (rest.take 4) with
      | .error e => (.error e, rest.drop 4)
      | .ok ts => (.ok ⟨sid, ts⟩, rest.drop 4)

/-- The `PacketParser.message` (lines 129-149): 1-byte length, then that many
bytes of ascii text under the MESSAGE key. -/
def message (s : List Nat) : Except String Record × List Nat :=
  match s with
  | [] => (.error "IndexError: read returned no data", [])
  | len :: rest =>
    match decodeAscii (rest.take len) with
    | some txt => (.ok [(Key.id MESSAGE, Value.str txt)], rest.drop len)
    | none => (.error "UnicodeDecodeError", rest.drop len)

/-- The `PacketParser.event` (lines 151-164): a 1-byte numeric code under the
EVENT key. -/
def event (s : List Nat) : Except String Record × List Nat :=
  match s with
  | [] => (.error "IndexError: read returned no data", [])
  | c :: rest => (.ok [(Key.id EVENT, Value.nat c)], rest)

/-- The `PacketParser.config` (lines 166-189): is-sim byte (nonzero = true),
device byte through `ID_TO_DEVICE` (raising `KeyError` on unknown bytes),
then a fixed 40-byte ascii version id. -/
def config (s : List Nat) : Except String Record × List Nat :=
  match s with
  | [] => (.error "IndexError: read returned no data", [])
  | b :: rest =>
    match rest with
    | [] => (.error "IndexError: read returned no data", [])
    | d :: rest1 =>
      match idToDevice d with
      | none => (.error "KeyError: unknown device id", rest1)
      | some dev =>
        match decodeAscii (rest1.take VERSION_ID_LEN) with
        | some ver =>
          (.ok [(Key.isSim, Value.bool (decide (b ≠ 0))),
                (Key.deviceType, Value.device dev),
                (Key.versionId, Value.str ver)], rest1.drop VERSION_ID_LEN)
        | none => (.error "UnicodeDecodeError", rest1.drop VERSION_ID_LEN)

/-- The `PacketParser.single_sensor` (lines 191-211): read 4 bytes and decode
one float32 with `fourtofloat` under its own subpacket-id key (the
length-4 assertion of `fourtofloat` fails on a short read). -/
def single_sensor (bigEndianFloats : Bool) (sid : Nat) (s : List Nat) :
    Except String Record × List Nat :=
  match fourtofloat bigEndianFloats (s.take 4) with
  | .ok w => (.ok [(Key.id sid, Value.float32 w)], s.drop 4)
  | .error e => (.error e, s.drop 4)

/-- The `PacketParser.parse_data` (lines 94-105) with the
`packetTypeToParser` table built in `__init__` (lines 53-60): Message,
Event, Config, and every id in the single-sensor range mapped to
`single_sensor`; any other id raises `KeyError`. -/
def parse_data (bigEndianFloats : Bool) (h : Header) (s : List Nat) :
    Except String Record × List Nat :=
  if h.subpacket_id = MESSAGE then message s
  else if h.subpacket_id = EVENT then event s
  else if h.subpacket_id = CONFIG then config s
  else if MIN_SINGLE_SENSOR_ID ≤ h.subpacket_id ∧ h.subpacket_id ≤ MAX_SINGLE_SENSOR_ID then
    single_sensor bigEndianFloats h.subpacket_id s
  else (.error "KeyError: no parser for subpacket id", s)

/-- The `PacketParser` per-call endianness state (lines 49-50, 62-64). -/
structure PacketParser where
  big_endian_ints : Option Bool
  big_endian_floats : Option Bool
deriving DecidableEq

/-- The `PacketParser.set_endianness` (lines 62-64). -/
def set_endianness (p : PacketParser) (bi bf : Bool) : PacketParser :=
  { p with big_endian_ints := some bi, big_endian_floats := some bf }

/-- The `PacketParser.extract` (lines 66-92): raise (consuming nothing, flags
untouched) if either endianness flag is unset; extract the header (a
failure there propagates with the flags still set, since the clearing
lines are only reached on the return path); run `parse_data` inside
try/except, degrading a failure to an empty dict; stamp the header
timestamp under the TIME key; clear both endianness flags; return. The
result triple is (outcome, parser state after the call, stream position
after the call). -/
def extract (p : PacketParser) (s : List Nat) :
    Except String Record × PacketParser × List Nat :=
  match p.big_endian_ints, p.big_endian_floats with
  | some bi, some bf =>
    match header bi s with
    | (.error e, s1) => (.error e, p, s1)
    | (.ok h, s1) =>
      let pd := parse_data bf h s1
      let parsed : Record := match pd.1 with | .ok d => d | .error _ => []
      (.ok (setKey parsed (Key.id TIME) (Value.nat h.timestamp)),
        ⟨none, none⟩, pd.2)
  | _, _ => (.error "Endianness not set before parsing", p, s)

end Parser

/-- The events emitted by a handler call, on either outcome. -/
def eventsOf : Except (List SimEvent) HandlerOut → List SimEvent
  | .ok out => out.events
  | .error evs => evs

/-- Decode a SensorRead response payload as consecutive SingleSensor
subpacket payloads: apply `Parser.single_sensor` to each successive 4-byte
group (`n` groups), collecting the decoded float32 patterns. -/
def decodeSingleSensorPayloads (bigEndianFloats : Bool) (sid : Nat) :
    Nat → List Nat → List Nat
  | 0, _ => []
  | Nat.succ n, s =>
    match Parser.single_sensor bigEndianFloats sid s with
    | (.ok [(_, Parser.Value.float32 w)], rest) =>
        w :: decodeSingleSensorPayloads bigEndianFloats sid n rest
    | _ => []

/-- A concrete hardware model for witness scenarios: pin 3 reads 512, every
sensor returns the float32 patterns of 1.0 and 2.0. -/
def hwTest : HwModel :=
  ⟨fun pin => if pin = 3 then 512 else 0, fun _ => [0x3F800000, 0x40000000]⟩

/-- C1: for every 8-byte Config payload received during endianness
negotiation, the decoded flags satisfy: ints-big-endian is true iff payload
byte 0 equals 0x04, and floats-big-endian is true iff payload byte 4 equals
0xC0; in particular the payload bytes 04 00 00 00 C0 00 00 00 yield
ints-big-endian = true and floats-big-endian = true. -/
theorem claim_C1 (b0 b1 b2 b3 b4 b5 b6 b7 : Nat) (tail : List Nat) :
    (∃ bi bf, getEndianness
        (0x01 :: 0x00 :: 0x08 :: b0 :: b1 :: b2 :: b3 :: b4 :: b5 :: b6 :: b7 :: tail)
        = .ok (bi, bf, tail) ∧ (bi = true ↔ b0 = 0x04) ∧ (bf = true ↔ b4 = 0xC0))
    ∧ getEndianness [0x01, 0x00, 0x08, 0x04, 0x00, 0x00, 0x00, 0xC0, 0x00, 0x00, 0x00]
        = .ok (true, true, []) := by
  exact ⟨⟨decide (b0 = 0x04), decide (b4 = 0xC0), rfl,
    decide_eq_true_iff, decide_eq_true_iff⟩, rfl⟩

theorem pack32_length (bigEndian : Bool) (w : Nat) : (pack32 bigEndian w).length = 4 := by
  cases bigEndian <;> rfl

theorem single_sensor_pack32 (bf : Bool) (sid w : Nat) (hw : w < 2 ^ 32) (rest : List Nat) :
    Parser.single_sensor bf sid (pack32 bf w ++ rest)
      = (.ok [(Parser.Key.id sid, Parser.Value.float32 w)], rest) := by
  have h4 : (pack32 bf w).length = 4 := pack32_length bf w
  have ht : (pack32 bf w ++ rest).take 4 = pack32 bf w := by
    rw [← h4]; exact List.take_left _ _
  have hd : (pack32 bf w ++ rest).drop 4 = rest := by
    rw [← h4]; exact List.drop_left _ _
  simp [Parser.single_sensor, Parser.fourtofloat, ht, hd, h4, unpack32_pack32 bf w hw]

theorem packSensorData_cons (bf : Bool) (w : Nat) (ws : List Nat) :
    packSensorData bf (w :: ws) = pack32 bf w ++ packSensorData bf ws := by
  simp [packSensorData]

/-- C2: for every finite sequence of float32 values and every
float-endianness setting, packing the sequence as a SensorRead response
payload (one 4-byte float32 per element in the negotiated float endianness,
as `_handleSensorRead` does) and then decoding each 4-byte group as a
SingleSensor subpacket payload with the same float endianness reproduces
the original float32 bit patterns exactly. -/
theorem claim_C2 (bf : Bool) (sid : Nat) (ws : List Nat) (hws : ∀ w ∈ ws, w < 2 ^ 32) :
    decodeSingleSensorPayloads bf sid ws.length (packSensorData bf ws) = ws := by
  induction ws with
  | nil => rfl
  | cons w ws ih =>
    have hw : w < 2 ^ 32 := hws w (by simp)
    have hws2 : ∀ v ∈ ws, v < 2 ^ 32 := fun v hv => hws v (by simp [hv])
    rw [packSensorData_cons, List.length_cons]
    simp only [decodeSingleSensorPayloads, single_sensor_pack32 bf sid w hw (packSensorData bf ws)]
    exact congrArg (w :: ·) (ih hws2)

theorem claim_C2_witness :
    (∀ w ∈ ([0x3F800000, 0x40000000] : List Nat), w < 2 ^ 32)
    ∧ decodeSingleSensorPayloads true 0x10 ([0x3F800000, 0x40000000] : List Nat).length
        (packSensorData true [0x3F800000, 0x40000000]) = [0x3F800000, 0x40000000] :=
  ⟨by decide, claim_C2 true 0x10 [0x3F800000, 0x40000000] (by decide)⟩

/-- C3: `send(hwid, data)` on a connection whose fixed identity differs from
`hwid` raises and forwards nothing to the radio relay; when `hwid` equals
the identity of the connection, `send` routes the payload to the relay
ground-to-rocket path exactly as `broadcast(data)` does. -/
theorem claim_C3 (connHwid hwid : String) (data : List Nat) :
    (hwid ≠ connHwid →
      send connHwid hwid data = .error ("Connection does not support HWID=" ++ hwid))
    ∧ (hwid = connHwid → send connHwid hwid data = .ok (broadcast data)) := by
  constructor <;> intro h <;> simp [send, h]

theorem claim_C3_witness :
    send "conn" "other" [1] = .error "Connection does not support HWID=other"
    ∧ send "conn" "conn" [2] = .ok (broadcast [2]) :=
  ⟨(claim_C3 "conn" "other" [1]).1 (by decide), (claim_C3 "conn" "conn" [2]).2 rfl⟩

/-- C8: for every AnalogRead request and every 16-bit hardware-model
reading, the bridge replies with a frame of opcode byte, 2-byte big-endian
length, then the reading as a 2-byte big-endian payload; a request for pin
3 with hardware-model value 512 produces exactly the bytes 61 00 02 02 00. -/
theorem claim_C8 (hw : HwModel) (hist : List Nat) (pin : Nat) (tail : List Nat)
    (hv : hw.analog_read pin < 2 ^ 16) :
    handleAnalogRead hw hist ([0x00, 0x01] ++ pin :: tail)
      = .ok ⟨[SimEvent.sentPacket (sendSimPacket 0x61
            [hw.analog_read pin / 256, hw.analog_read pin % 256])],
          pushHist (pushHist hist [0x00, 0x01]) [pin], tail⟩
    ∧ sendSimPacket 0x61 [hw.analog_read pin / 256, hw.analog_read pin % 256]
      = [0x61, 0x00, 0x02, hw.analog_read pin / 256, hw.analog_read pin % 256]
    ∧ handleAnalogRead hwTest [] [0x00, 0x01, 0x03]
      = .ok ⟨[SimEvent.sentPacket [0x61, 0x00, 0x02, 0x02, 0x00]], [0x00, 0x01, 0x03], []⟩ := by
  refine ⟨?_, by simp [sendSimPacket], by rfl⟩
  simp [handleAnalogRead, getLengthH, show hw.analog_read pin < 65536 from hv]

theorem claim_C8_witness :
    handleAnalogRead hwTest [] ([0x00, 0x01] ++ 3 :: [])
      = .ok ⟨[SimEvent.sentPacket (sendSimPacket 0x61
            [hwTest.analog_read 3 / 256, hwTest.analog_read 3 % 256])],
          pushHist (pushHist [] [0x00, 0x01]) [3], []⟩ :=
  (claim_C8 hwTest [] 3 [] (by decide)).1

theorem countViolations_append (a b : List SimEvent) :
    countViolations (a ++ b) = countViolations a + countViolations b := by
  simp [countViolations, List.filter_append]

theorem handleBuzzer_no_violation (hist s : List Nat) :
    countViolations (eventsOf (handleBuzzer hist s)) = 0 := by
  rcases s with _ | ⟨a, _ | ⟨b, rest⟩⟩
  · rfl
  · rfl
  · simp only [handleBuzzer, getLengthH]
    split
    · rfl
    · rcases rest with _ | ⟨c, rest1⟩
      · rfl
      · rfl

theorem handleDigitalPinWrite_no_violation (hist s : List Nat) :
    countViolations (eventsOf (handleDigitalPinWrite hist s)) = 0 := by
  rcases s with _ | ⟨a, _ | ⟨b, rest⟩⟩
  · rfl
  · rfl
  · simp only [handleDigitalPinWrite, getLengthH]
    split
    · rfl
    · rcases rest with _ | ⟨p, _ | ⟨v, rest1⟩⟩
      · rfl
      · rfl
      · rfl

theorem handleRadio_no_violation (conn : ConnState) (hist s : List Nat) :
    countViolations (eventsOf (handleRadio conn hist s)) = 0 := by
  rcases s with _ | ⟨a, _ | ⟨b, rest⟩⟩
  · rfl
  · rfl
  · by_cases h0 : a * 256 + b = 0 <;> by_cases hc : conn.callbackRegistered <;>
      simp [handleRadio, getLengthH, eventsOf, countViolations, h0, hc]

theorem handleAnalogRead_no_violation (hw : HwModel) (hist s : List Nat) :
    countViolations (eventsOf (handleAnalogRead hw hist s)) = 0 := by
  rcases s with _ | ⟨a, _ | ⟨b, rest⟩⟩
  · rfl
  · rfl
  · simp only [handleAnalogRead, getLengthH]
    split
    · rfl
    · rcases rest with _ | ⟨pin, rest1⟩
      · rfl
      · by_cases hv : hw.analog_read pin < 65536 <;>
          simp [eventsOf, countViolations, hv]

theorem handleSensorRead_no_violation (conn : ConnState) (hw : HwModel) (hist s : List Nat) :
    countViolations (eventsOf (handleSensorRead conn hw hist s)) = 0 := by
  rcases s with _ | ⟨a, _ | ⟨b, rest⟩⟩
  · rfl
  · rfl
  · simp only [handleSensorRead, getLengthH]
    split
    · rfl
    · rcases rest with _ | ⟨sid, rest1⟩
      · rfl
      · rcases h : idToSensor sid with _ | sensor <;>
          simp [eventsOf, countViolations, h]

theorem dispatch_no_violation (conn : ConnState) (hw : HwModel) (id : Nat) (hist s : List Nat) :
    countViolations (eventsOf (dispatch conn hw id hist s)) = 0 := by
  unfold dispatch
  split_ifs <;>
    first
      | exact handleBuzzer_no_violation hist s
      | exact handleDigitalPinWrite_no_violation hist s
      | exact handleRadio_no_violation conn hist s
      | exact handleAnalogRead_no_violation hw hist s
      | exact handleSensorRead_no_violation conn hw hist s

theorem runLoop_violations_le_one (conn : ConnState) (hw : HwModel) (sd : Bool) :
    ∀ fuel hist s, countViolations (runLoop conn hw sd fuel hist s).1 ≤ 1 := by
  intro fuel
  induction fuel with
  | zero => intro hist s; simp [runLoop, countViolations]
  | succ fuel ih =>
    intro hist s
    rcases s with _ | ⟨id, rest⟩
    · cases sd <;> simp [runLoop, countViolations]
    · simp only [runLoop]
      by_cases hmem : id ∈ handledOpcodes
      · simp only [hmem, if_true]
        rcases hdisp : dispatch conn hw id (pushHist hist [id]) rest with evs | out
        · have h0 : countViolations evs = 0 := by
            have hnv := dispatch_no_violation conn hw id (pushHist hist [id]) rest
            rwa [hdisp] at hnv
          simp only [countViolations] at h0
          cases sd <;> simp [countViolations_append, countViolations] <;> omega
        · have h0 : countViolations out.events = 0 := by
            have hnv := dispatch_no_violation conn hw id (pushHist hist [id]) rest
            rwa [hdisp] at hnv
          simpa [countViolations_append, h0] using ih out.hist out.rest
      · simp [hmem, countViolations]

theorem runLoop_state (conn : ConnState) (hw : HwModel) (sd : Bool) :
    ∀ fuel hist s, (runLoop conn hw sd fuel hist s).2 = conn := by
  intro fuel
  induction fuel with
  | zero => intro hist s; rfl
  | succ fuel ih =>
    intro hist s
    rcases s with _ | ⟨id, rest⟩
    · rfl
    · simp only [runLoop]
      by_cases hmem : id ∈ handledOpcodes
      · simp only [hmem, if_true]
        rcases hdisp : dispatch conn hw id (pushHist hist [id]) rest with evs | out <;> simp [ih]
      · simp [hmem]

/-- C4: for every inbound frame whose opcode byte is outside the read-loop
recognized handler set, the read loop logs the violation together with the
buffered byte history and then terminates, processing no further frames on
that connection (the trace is exactly the one violation log); and every
trace of the loop contains at most one violation log, so termination for
this cause happens exactly once per connection. -/
theorem claim_C4 :
    (∀ (conn : ConnState) (hw : HwModel) (sd : Bool) (fuel : Nat) (hist : List Nat)
        (id : Nat) (rest : List Nat), id ∉ handledOpcodes →
      runLoop conn hw sd (fuel + 1) hist (id :: rest)
        = ([SimEvent.violationLogged (pushHist hist [id])], conn))
    ∧ (∀ (conn : ConnState) (hw : HwModel) (sd : Bool) (fuel : Nat) (hist s : List Nat),
        countViolations (runLoop conn hw sd fuel hist s).1 ≤ 1) := by
  constructor
  · intro conn hw sd fuel hist id rest hid
    simp [runLoop, hid]
  · exact fun conn hw sd fuel hist s => runLoop_violations_le_one conn hw sd fuel hist s

theorem claim_C4_witness :
    runLoop ⟨true, true, true⟩ hwTest false (0 + 1) [] (0xFF :: [])
      = ([SimEvent.violationLogged (pushHist [] [0xFF])], ⟨true, true, true⟩)
    ∧ countViolations (runLoop ⟨true, true, true⟩ hwTest false 3 [] [0x07, 0x00, 0x01, 0x05]).1
        ≤ 1 :=
  ⟨claim_C4.1 ⟨true, true, true⟩ hwTest false 0 [] 0xFF [] (by decide),
   claim_C4.2 ⟨true, true, true⟩ hwTest false 3 [] [0x07, 0x00, 0x01, 0x05]⟩

/-- C10: after endianness negotiation completes, a Config frame
(opcode 0x01) arriving on the link is treated by the read loop as a
protocol violation — it is among the recognized bridge-inbound opcodes but
not in the runtime handler table, so the loop logs the violation and
terminates — and the loop never changes the negotiated endianness flags on
any input. -/
theorem claim_C10 :
    (0x01 ∈ recognizedRxOpcodes ∧ 0x01 ∉ handledOpcodes)
    ∧ (∀ (conn : ConnState) (hw : HwModel) (sd : Bool) (fuel : Nat) (hist rest : List Nat),
        runLoop conn hw sd (fuel + 1) hist (0x01 :: rest)
          = ([SimEvent.violationLogged (pushHist hist [0x01])], conn))
    ∧ (∀ (conn : ConnState) (hw : HwModel) (sd : Bool) (fuel : Nat) (hist s : List Nat),
        (runLoop conn hw sd fuel hist s).2.bigEndianInts = conn.bigEndianInts
        ∧ (runLoop conn hw sd fuel hist s).2.bigEndianFloats = conn.bigEndianFloats) := by
  refine ⟨by decide, ?_, ?_⟩
  · intro conn hw sd fuel hist rest
    simp [runLoop, show (0x01 : Nat) ∉ handledOpcodes by decide]
  · intro conn hw sd fuel hist s
    rw [runLoop_state]
    exact ⟨rfl, rfl⟩

/-- C9: shutdown is idempotent: a second `shutdown` on the same connection
sets the guard flag, delivers no further kill to the subprocess, returns
from the repeated join, and leaves the connection in the same terminated
state as after the first call. -/
theorem claim_C9 (st : ShutdownState) :
    shutdown (shutdown st) = shutdown st
    ∧ (shutdown (shutdown st)).isShuttingDown = true
    ∧ (shutdown (shutdown st)).killCount = (shutdown st).killCount
    ∧ (shutdown (shutdown st)).threadRunning = false := by
  cases h : st.procAlive <;> simp [shutdown, killProc, joinThread, h]

theorem lookupRecord_setKey (r : Parser.Record) (k : Parser.Key) (v : Parser.Value) :
    Parser.lookupRecord (Parser.setKey r k v) k = some v := by
  induction r with
  | nil => simp [Parser.setKey, Parser.lookupRecord]
  | cons p rest ih =>
    by_cases hpk : p.1 = k
    · simp [Parser.setKey, Parser.lookupRecord, hpk, beq_iff_eq]
    · by_cases hra : rest.any (fun q => q.1 == k) = true
      · simp [Parser.setKey, Parser.lookupRecord, hpk, hra, beq_iff_eq] at ih ⊢
        exact ih
      · simp [Parser.setKey, Parser.lookupRecord, hpk, hra, beq_iff_eq] at ih ⊢
        exact ih

/-- C5 counterexample: the claim "two consecutive extract calls with no
intervening set_endianness always fail on the second call" is false: a
first call whose header fails (here: invalid subpacket id 0xFF) raises
without clearing the endianness flags, and the second call then returns
normally. -/
theorem claim_C5_counterexample :
    (Parser.extract ⟨some true, some true⟩ [0xFF]).1
        = .error "ValueError: Subpacket id not valid"
    ∧ (Parser.extract (Parser.extract ⟨some true, some true⟩ [0xFF]).2.1
        [0x02, 0, 0, 0, 1, 7]).1
      = .ok [(Parser.Key.id Parser.EVENT, Parser.Value.nat 7),
             (Parser.Key.id Parser.TIME, Parser.Value.nat 1)] :=
  ⟨rfl, rfl⟩

/-- C5 (amended): calling extract when endianness has not been supplied
raises before consuming any input (parser state and stream untouched); and
every call that returns normally clears both endianness flags on return, so
when the first of two consecutive extract calls (with no intervening
set_endianness) returns normally, the second always fails with the
endianness error. (A raising first call leaves the flags set, which is what
the counterexample exploits.) -/
theorem claim_C5 (p : Parser.PacketParser) (s : List Nat) :
    (p.big_endian_ints = none ∨ p.big_endian_floats = none →
      Parser.extract p s = (.error "Endianness not set before parsing", p, s))
    ∧ (∀ (r : Parser.Record) (p1 : Parser.PacketParser) (s1 s2 : List Nat),
        Parser.extract p s = (.ok r, p1, s1) →
        (Parser.extract p1 s2).1 = .error "Endianness not set before parsing") := by
  obtain ⟨bi, bf⟩ := p
  constructor
  · intro hnone
    rcases bi with _ | bi <;> rcases bf with _ | bf <;> simp_all [Parser.extract]
  · intro r p1 s1 s2 hex
    rcases bi with _ | bi <;> rcases bf with _ | bf <;>
      simp only [Parser.extract] at hex
    · simp at hex
    · simp at hex
    · simp at hex
    · rcases hh : Parser.header bi s with ⟨eh | h, sh⟩ <;> rw [hh] at hex
      · simp at hex
      · simp only [Prod.mk.injEq, Except.ok.injEq] at hex
        rw [← hex.2.1]
        rfl

theorem claim_C5_witness :
    Parser.extract ⟨none, none⟩ [1, 2, 3]
      = (.error "Endianness not set before parsing", ⟨none, none⟩, [1, 2, 3])
    ∧ (Parser.extract (⟨none, none⟩ : Parser.PacketParser) [9]).1
      = .error "Endianness not set before parsing" :=
  ⟨(claim_C5 ⟨none, none⟩ [1, 2, 3]).1 (Or.inl rfl),
   (claim_C5 ⟨some true, some true⟩ [0x02, 0, 0, 0, 1, 7]).2
      [(Parser.Key.id Parser.EVENT, Parser.Value.nat 7),
       (Parser.Key.id Parser.TIME, Parser.Value.nat 1)] ⟨none, none⟩ [] [9] rfl⟩

/-- C6 counterexample: the claim that a failure on "an unrecognized
subpacket id in the header" is caught by extract and yields a record rather
than raising is false: with endianness set, extract on a stream whose
header id is invalid (0xFF) raises the ValueError from the header. -/
theorem claim_C6_counterexample :
    (Parser.extract ⟨some true, some true⟩ [0xFF, 0, 0, 0, 0]).1
      = .error "ValueError: Subpacket id not valid" := rfl

/-- C6 (amended): a failure inside the payload parser after a valid header
(any per-field payload decode error, or an id with no bound parser) is
caught by extract and yields a partial/empty record still stamped with the
header timestamp, leaving the decoder usable for subsequent packets; but an
unrecognized subpacket id in the header is not caught: header failures
propagate to the caller (with the endianness flags still set). -/
theorem claim_C6 (bi bf : Bool) (s s1 s2 sr : List Nat) (h : Parser.Header)
    (e e2 : String)
    (hhdr : Parser.header bi s = (.ok h, s1))
    (hfail : (Parser.parse_data bf h s1).1 = .error e)
    (hbad : Parser.header bi s2 = (.error e2, sr)) :
    Parser.extract ⟨some bi, some bf⟩ s
      = (.ok [(Parser.Key.id Parser.TIME, Parser.Value.nat h.timestamp)],
         ⟨none, none⟩, (Parser.parse_data bf h s1).2)
    ∧ Parser.extract ⟨some bi, some bf⟩ s2 = (.error e2, ⟨some bi, some bf⟩, sr) := by
  constructor
  · simp only [Parser.extract]
    rw [hhdr]
    rcases hpd : Parser.parse_data bf h s1 with ⟨res, rest⟩
    rw [hpd] at hfail
    simp only at hfail
    rw [hfail] at hpd
    simp [hpd, Parser.setKey]
  · simp only [Parser.extract]
    rw [hbad]

theorem claim_C6_witness :
    Parser.extract ⟨some true, some true⟩ [0x10, 0, 0, 0, 5, 1, 2]
      = (.ok [(Parser.Key.id Parser.TIME, Parser.Value.nat 5)], ⟨none, none⟩,
         (Parser.parse_data true ⟨0x10, 5⟩ [1, 2]).2)
    ∧ Parser.extract ⟨some true, some true⟩ [0xFF, 0, 0, 0, 0]
      = (.error "ValueError: Subpacket id not valid", ⟨some true, some true⟩,
         [0, 0, 0, 0]) :=
  claim_C6 true true [0x10, 0, 0, 0, 5, 1, 2] [1, 2] [0xFF, 0, 0, 0, 0] [0, 0, 0, 0]
    ⟨0x10, 5⟩ "AssertionError: len 4" "ValueError: Subpacket id not valid" rfl rfl rfl

/-- C7: for every subpacket that decodes successfully (extract returns
normally), the returned record contains the 4-byte header timestamp under
the reserved time key; in particular a Message subpacket with length byte 5
and text HELLO decodes to a record of exactly the message "HELLO" and the
header timestamp under the time key. -/
theorem claim_C7 :
    (∀ (bi bf : Bool) (s : List Nat) (r : Parser.Record) (p1 : Parser.PacketParser)
        (s1 : List Nat),
      Parser.extract ⟨some bi, some bf⟩ s = (.ok r, p1, s1) →
      ∃ h s2, Parser.header bi s = (.ok h, s2)
        ∧ Parser.lookupRecord r (Parser.Key.id Parser.TIME)
            = some (Parser.Value.nat h.timestamp))
    ∧ Parser.extract ⟨some true, some true⟩ [0x01, 0, 0, 0, 42, 5, 72, 69, 76, 76, 79]
      = (.ok [(Parser.Key.id Parser.MESSAGE, Parser.Value.str "HELLO"),
              (Parser.Key.id Parser.TIME, Parser.Value.nat 42)], ⟨none, none⟩, []) := by
  constructor
  · intro bi bf s r p1 s1 hex
    simp only [Parser.extract] at hex
    rcases hh : Parser.header bi s with ⟨eh | h, s2⟩ <;> rw [hh] at hex
    · simp at hex
    · simp only [Prod.mk.injEq, Except.ok.injEq] at hex
      exact ⟨h, s2, rfl, hex.1 ▸ lookupRecord_setKey _ _ _⟩
  · rfl

theorem claim_C7_witness :
    ∃ h s2, Parser.header true [0x02, 0, 0, 0, 1, 7] = (.ok h, s2)
      ∧ Parser.lookupRecord
          [(Parser.Key.id Parser.EVENT, Parser.Value.nat 7),
           (Parser.Key.id Parser.TIME, Parser.Value.nat 1)]
          (Parser.Key.id Parser.TIME) = some (Parser.Value.nat h.timestamp) :=
  claim_C7.1 true true [0x02, 0, 0, 0, 1, 7]
    [(Parser.Key.id Parser.EVENT, Parser.Value.nat 7),
     (Parser.Key.id Parser.TIME, Parser.Value.nat 1)] ⟨none, none⟩ [] rfl

end GroundStation
